import Mathlib

/-!
Verification development for the staged UGC import pipeline.

This file gives a shallow embedding of the import pipeline of the
content-commerce repository: the `ImportLogger` utility
(`apps/web/src/lib/import-logger.ts`), the Zod row schemas
(`packages/shared/src/schemas/ugc.ts`), the manual single-item import
route (`apps/web/src/app/api/workspaces/[slug]/ugc/route.ts`, POST) and
the CSV batch import route
(`apps/web/src/app/api/workspaces/[slug]/ugc/import/csv/route.ts`, POST).

Modelling conventions:
- Database rows are Lean structures; the stores are Lean lists in
  insertion order (Prisma returns entries ordered by `createdAt`
  ascending, which for append-only writes is insertion order).
- Record ids are natural numbers; cuid generation is abstracted as a
  supplied fresh id.
- Timestamps and per-entry `duration` are not modelled (no claim
  mentions them); the nullable `completedAt` is modelled as a Boolean
  flag recording whether it has been set.
- `prisma.ugcPost.create` / `prisma.rightsRequest.create` can throw at
  runtime (constraint violations, connectivity); the embedding takes
  Boolean oracles saying whether each create succeeds, so that theorems
  quantify over every possible failure pattern.
- URL well-formedness (`z.string().url()`) is abstracted as a Boolean
  predicate parameter `validUrl`; no claim depends on which strings are
  well-formed URLs.
- JSON `details` payloads of log entries are opaque diagnostic data and
  are not modelled; a log entry keeps its `step`, `status` and `message`.
-/

/-- Platform enumeration, from `platformSchema = z.enum([...])` in
`packages/shared/src/schemas/ugc.ts`.  The database stores the platform
as a string, and the CSV schema produces arbitrary upper-cased strings,
so the pipeline works on `String` and this list is the membership test
that `z.enum` performs. -/
def platformEnum : List String := ["TIKTOK", "INSTAGRAM", "YOUTUBE", "MANUAL"]

/-- Run status enumeration `ImportLogStatus` from the Prisma schema. -/
inductive ImportLogStatus where
  | PENDING
  | PROCESSING
  | COMPLETED
  | FAILED
  | PARTIAL
deriving DecidableEq, Repr

/-- Step enumeration `ImportLogStep` from the Prisma schema. -/
inductive ImportLogStep where
  | VALIDATING
  | CHECKING_DUPLICATE
  | EXTRACTING_HASHTAGS
  | CREATING_POST
  | CREATING_RIGHTS_REQUEST
  | FETCHING_MEDIA
  | COMPLETED
  | FAILED
deriving DecidableEq, Repr

/-- Entry status type `LogStatus` from `import-logger.ts`. -/
inductive LogStatus where
  | success
  | error
  | warning
  | info
deriving DecidableEq, Repr

/-- One `import_log_entries` row: step, outcome status, and message. -/
structure ImportLogEntry where
  step : ImportLogStep
  status : LogStatus
  message : String
deriving DecidableEq, Repr

/-- One `import_logs` row (an `ImportRun` in the design document). -/
structure ImportLogRun where
  id : Nat
  workspaceId : String
  source : String
  status : ImportLogStatus
  totalItems : Nat
  processed : Nat
  succeeded : Nat
  failed : Nat
  entries : List ImportLogEntry
  completedAtSet : Bool
deriving DecidableEq, Repr

/-- One `ugc_posts` row (the `ContentRecord` of the design document).
The unique key is (workspaceId, platform, postUrl). -/
structure UgcPost where
  id : Nat
  workspaceId : String
  platform : String
  postUrl : String
  creatorHandle : String
  creatorName : Option String
  caption : Option String
  hashtags : List String
  postedAt : Option String
  importSource : String
deriving DecidableEq, Repr

/-- One `rights_requests` row, the dependent record bootstrapped for a
created post. -/
structure RightsRequest where
  workspaceId : String
  ugcPostId : Nat
  status : String
deriving DecidableEq, Repr

/-- Duplicate-detection predicate: the `where` clause of the
`prisma.ugcPost.findFirst` calls in both import routes, looking up the
(workspaceId, platform, postUrl) key. -/
def dupKeyMatches (ws platform url : String) (p : UgcPost) : Bool :=
  (p.workspaceId == ws) && (p.platform == platform) && (p.postUrl == url)

/-- JS `\w` character class: ASCII letters, digits and underscore. -/
def isWordChar (c : Char) : Bool :=
  c.isAlpha || c.isDigit || c == '_'

/-- JS `toLowerCase()` restricted to ASCII (every string the pipeline
lower-cases in the claims is ASCII), as a kernel-reducible map over the
character list. -/
def lowerString (s : String) : String :=
  String.mk (s.data.map Char.toLower)

/-- JS `toUpperCase()` restricted to ASCII, as a kernel-reducible map
over the character list. -/
def upperString (s : String) : String :=
  String.mk (s.data.map Char.toUpper)

/-- Whitespace stripped by JS `trim()` (ASCII fragment). -/
def isJsSpace (c : Char) : Bool :=
  c == ' ' || c == '\t' || c == '\n' || c == '\r'

/-- JS `trim()`: remove leading and trailing whitespace. -/
def trimString (s : String) : String :=
  String.mk (((s.data.dropWhile isJsSpace).reverse.dropWhile isJsSpace).reverse)

/-- Splitter for JS `split(',')` (accumulates the current field in
reverse). -/
def splitCommaAux : List Char → List Char → List String
  | [], acc => [String.mk acc.reverse]
  | c :: cs, acc =>
    if c == ',' then String.mk acc.reverse :: splitCommaAux cs []
    else splitCommaAux cs (c :: acc)

/-- JS `split(',')`. -/
def splitComma (s : String) : List String :=
  splitCommaAux s.data []

/-- Fuel-indexed scanner for the JS regex `/#[\w]+/g`: a match is a `#`
followed by a maximal non-empty run of word characters; when a match is
emitted the leading `#` is already removed (the route maps `t.slice(1)`
over the matches).  Each step consumes at least one character, so fuel
equal to the list length is always sufficient; the fuel only makes the
recursion structural. -/
def scanHashtagsAux : Nat → List Char → List String
  | 0, _ => []
  | _, [] => []
  | fuel + 1, c :: cs =>
    if c == '#' then
      let w := cs.takeWhile isWordChar
      if w.isEmpty then scanHashtagsAux fuel cs
      else String.mk w :: scanHashtagsAux fuel (cs.dropWhile isWordChar)
    else scanHashtagsAux fuel cs

/-- All matches of the JS regex `/#[\w]+/g` over a character list, with
the leading `#` stripped from each match. -/
def scanHashtags (l : List Char) : List String :=
  scanHashtagsAux l.length l

/-- Hashtag normalization of the manual route (`ugc/route.ts` line 190):
`hashtags || (caption?.match(/#[\w]+/g)?.map(t => t.slice(1).toLowerCase()) || [])`.
An explicitly supplied list (even an empty one: `[]` is truthy in JS) is
used verbatim; otherwise tokens are extracted from the caption and each
token is lower-cased. -/
def extractManualHashtags (hashtags : Option (List String)) (caption : Option String) :
    List String :=
  match hashtags with
  | some hs => hs
  | none =>
    match caption with
    | some c => (scanHashtags c.data).map lowerString
    | none => []

/-- Strip a single leading `#`, the JS `replace(/^#/, '')`. -/
def stripLeadingHash (s : String) : String :=
  match s.data with
  | '#' :: cs => String.mk cs
  | _ => s

/-- Hashtag parsing of the CSV route (`import/csv/route.ts` lines 105-107):
`hashtags ? hashtags.split(',').map(t => t.trim().toLowerCase().replace(/^#/, '')) : []`.
The empty string is falsy in JS, so it also yields `[]`. -/
def parseCsvHashtags : Option String → List String
  | none => []
  | some h =>
    if h == "" then []
    else (splitComma h).map (fun t => stripLeadingHash (lowerString (trimString t)))

/-- The aggregate status resolver, the expression at
`import/csv/route.ts` line 160:
`failed === rows.length ? 'FAILED' : (failed > 0 ? 'PARTIAL' : 'COMPLETED')`. -/
def resolveStatus (total failed : Nat) : ImportLogStatus :=
  if failed == total then ImportLogStatus.FAILED
  else if failed > 0 then ImportLogStatus.PARTIAL
  else ImportLogStatus.COMPLETED

/-- A raw CSV row as handed to `importUgcCsvRowSchema.safeParse`.  The
three required columns are fields of type `String` (rows missing a
required column are rejected by Zod before the checks modelled here and
are not a subject of any claim); the optional columns are `Option`s. -/
structure CsvRawRow where
  post_url : String
  platform : String
  creator_handle : String
  creator_name : Option String
  caption : Option String
  hashtags : Option String
  posted_at : Option String
deriving DecidableEq, Repr

/-- The output of a successful `importUgcCsvRowSchema.safeParse`.  Note
that `platform` is a `String`: the schema is
`z.string().transform((val) => val.toUpperCase() as Platform)`, a bare
cast with no membership check against the platform enumeration. -/
structure CsvValidRow where
  post_url : String
  platform : String
  creator_handle : String
  creator_name : Option String
  caption : Option String
  hashtags : Option String
  posted_at : Option String
deriving DecidableEq, Repr

/-- `importUgcCsvRowSchema.safeParse` (`packages/shared/src/schemas/ugc.ts`
lines 44-52): `post_url` must be a well-formed URL, `creator_handle` a
non-empty string, `platform` is any string and is upper-cased.  On
failure the result is the field-keyed error map (`flatten().fieldErrors`),
in schema field order. -/
def csvValidate (validUrl : String → Bool) (row : CsvRawRow) :
    Except (List (String × String)) CsvValidRow :=
  let errs :=
    (if validUrl row.post_url then [] else [(("post_url"), ("Invalid url"))]) ++
    (if 1 ≤ row.creator_handle.length then []
     else [(("creator_handle"), ("String must contain at least 1 character(s)"))])
  if errs.isEmpty then
    Except.ok
      { post_url := row.post_url
        platform := upperString row.platform
        creator_handle := row.creator_handle
        creator_name := row.creator_name
        caption := row.caption
        hashtags := row.hashtags
        posted_at := row.posted_at }
  else Except.error errs

/-- The body of a manual import request, the fields read by
`importUgcManualSchema`. -/
structure ManualBody where
  postUrl : String
  platform : String
  creatorHandle : String
  creatorName : Option String
  caption : Option String
  hashtags : Option (List String)
  postedAt : Option String
deriving DecidableEq, Repr

/-- `importUgcManualSchema` (`packages/shared/src/schemas/ugc.ts` lines
31-39): well-formed URL, platform drawn from the `z.enum` platform
enumeration, creator handle of length 1..100.  (`postedAt` coercion to a
date is abstracted away; no claim depends on it.) -/
def manualValidate (validUrl : String → Bool) (b : ManualBody) : Bool :=
  validUrl b.postUrl && platformEnum.contains b.platform &&
    (1 ≤ b.creatorHandle.length && b.creatorHandle.length ≤ 100)

/-- Private state of an `ImportLogger` instance (`import-logger.ts`):
`logId` is `null` until `start()` succeeds. -/
structure LoggerHandle where
  logId : Option Nat
  workspaceId : String
  source : String
  totalItems : Nat
deriving DecidableEq, Repr

/-- The `import_logs` table. -/
abbrev LogStore := List ImportLogRun

/-- `prisma.importLog.update({ where: { id } , data })`: apply `f` to the
run with the given id. -/
def updateRun (store : LogStore) (id : Nat) (f : ImportLogRun → ImportLogRun) : LogStore :=
  store.map (fun r => if r.id == id then f r else r)

/-- Append one entry to the run with the given id
(`prisma.importLogEntry.create`; entries are read back ordered by
`createdAt` ascending, i.e. in append order). -/
def appendEntry (store : LogStore) (id : Nat) (e : ImportLogEntry) : LogStore :=
  updateRun store id (fun r => { r with entries := r.entries ++ [e] })

/-- `ImportLogger.start()`: create the run row with status PROCESSING
and remember its id in the handle.  Cuid generation is abstracted as the
supplied `freshId`. -/
def ImportLogger.start (h : LoggerHandle) (store : LogStore) (freshId : Nat) :
    LoggerHandle × LogStore :=
  ({ h with logId := some freshId },
   store ++ [{ id := freshId
               workspaceId := h.workspaceId
               source := h.source
               status := ImportLogStatus.PROCESSING
               totalItems := h.totalItems
               processed := 0
               succeeded := 0
               failed := 0
               entries := []
               completedAtSet := false }])

/-- The exact message of the guard in `ImportLogger.log`. -/
def notStartedMsg : String := "ImportLogger not started. Call start() first."

/-- `ImportLogger.log(step, status, message)`: throws if `start()` has
not been called, otherwise appends one entry to the run. -/
def ImportLogger.log (h : LoggerHandle) (store : LogStore) (step : ImportLogStep)
    (status : LogStatus) (message : String) : Except String LogStore :=
  match h.logId with
  | none => Except.error notStartedMsg
  | some id => Except.ok (appendEntry store id { step := step, status := status, message := message })

/-- `ImportLogger.success`. -/
def ImportLogger.success (h : LoggerHandle) (store : LogStore) (step : ImportLogStep)
    (message : String) : Except String LogStore :=
  ImportLogger.log h store step LogStatus.success message

/-- `ImportLogger.error`. -/
def ImportLogger.error (h : LoggerHandle) (store : LogStore) (step : ImportLogStep)
    (message : String) : Except String LogStore :=
  ImportLogger.log h store step LogStatus.error message

/-- `ImportLogger.warning`. -/
def ImportLogger.warning (h : LoggerHandle) (store : LogStore) (step : ImportLogStep)
    (message : String) : Except String LogStore :=
  ImportLogger.log h store step LogStatus.warning message

/-- `ImportLogger.info`. -/
def ImportLogger.info (h : LoggerHandle) (store : LogStore) (step : ImportLogStep)
    (message : String) : Except String LogStore :=
  ImportLogger.log h store step LogStatus.info message

/-- `ImportLogger.updateProgress(processed, succeeded, failed)`: silently
does nothing when not started (`if (!this.logId) return`). -/
def ImportLogger.updateProgress (h : LoggerHandle) (store : LogStore)
    (processed succeeded failed : Nat) : LogStore :=
  match h.logId with
  | none => store
  | some id =>
    updateRun store id
      (fun r => { r with processed := processed, succeeded := succeeded, failed := failed })

/-- `ImportLogger.complete(status)`: silently does nothing when not
started; otherwise appends the entry (COMPLETED, success,
"Import completed") and then sets the final status and `completedAt`.
The appended entry does not depend on the `status` argument. -/
def ImportLogger.complete (h : LoggerHandle) (store : LogStore)
    (status : ImportLogStatus) : LogStore :=
  match h.logId with
  | none => store
  | some id =>
    updateRun
      (appendEntry store id
        { step := ImportLogStep.COMPLETED, status := LogStatus.success, message := "Import completed" })
      id (fun r => { r with status := status, completedAtSet := true })

/-- `ImportLogger.fail(errorMessage)`: silently does nothing when not
started; otherwise appends the entry (FAILED, error, errorMessage) and
sets status FAILED and `completedAt`. -/
def ImportLogger.fail (h : LoggerHandle) (store : LogStore) (errorMessage : String) : LogStore :=
  match h.logId with
  | none => store
  | some id =>
    updateRun
      (appendEntry store id
        { step := ImportLogStep.FAILED, status := LogStatus.error, message := errorMessage })
      id (fun r => { r with status := ImportLogStatus.FAILED, completedAtSet := true })

/-- `getImportLog(logId, workspaceId)` (`import-logger.ts` lines
179-188): `findFirst` on id AND workspaceId, so a run of another
workspace is invisible. -/
def getImportLog (store : LogStore) (logId : Nat) (workspaceId : String) :
    Option ImportLogRun :=
  store.find? (fun r => (r.id == logId) && (r.workspaceId == workspaceId))

/-- Response shape of the single-run read endpoint
(GET `.../ugc/import-logs/[logId]`): HTTP status, the `success` flag,
the error code if any, and the run payload if any. -/
structure LogApiResponse where
  httpStatus : Nat
  success : Bool
  errorCode : Option String
  payload : Option ImportLogRun
deriving DecidableEq, Repr

/-- The GET handler for a single import log, after the workspace context
has resolved to `workspaceId`: 404 when `getImportLog` finds nothing. -/
def importLogGetRoute (store : LogStore) (workspaceId : String) (logId : Nat) :
    LogApiResponse :=
  match getImportLog store logId workspaceId with
  | none =>
    { httpStatus := 404, success := false, errorCode := some ("NOT_FOUND"), payload := none }
  | some log =>
    { httpStatus := 200, success := true, errorCode := none, payload := some log }

/-- `logger.log` specialized to the single started run both import
routes operate on: append one entry. -/
def runAppend (r : ImportLogRun) (step : ImportLogStep) (status : LogStatus)
    (message : String) : ImportLogRun :=
  { r with entries := r.entries ++ [{ step := step, status := status, message := message }] }

/-- `logger.updateProgress` specialized to the single started run. -/
def runSetProgress (r : ImportLogRun) (processed succeeded failed : Nat) : ImportLogRun :=
  { r with processed := processed, succeeded := succeeded, failed := failed }

/-- `logger.complete(status)` specialized to the single started run:
append (COMPLETED, success, "Import completed"), then set the final
status and `completedAt`. -/
def runComplete (r : ImportLogRun) (status : ImportLogStatus) : ImportLogRun :=
  let r1 := runAppend r ImportLogStep.COMPLETED LogStatus.success ("Import completed")
  { r1 with status := status, completedAtSet := true }

/-- `logger.fail(errorMessage)` specialized to the single started run:
append (FAILED, error, errorMessage), then set status FAILED and
`completedAt`. -/
def runFail (r : ImportLogRun) (errorMessage : String) : ImportLogRun :=
  let r1 := runAppend r ImportLogStep.FAILED LogStatus.error errorMessage
  { r1 with status := ImportLogStatus.FAILED, completedAtSet := true }

/-- The freshly created run of `logger.start()` as seen by a route that
constructed its logger with the given source and item count. -/
def freshRun (runId : Nat) (ws source : String) (totalItems : Nat) : ImportLogRun :=
  { id := runId
    workspaceId := ws
    source := source
    status := ImportLogStatus.PROCESSING
    totalItems := totalItems
    processed := 0
    succeeded := 0
    failed := 0
    entries := []
    completedAtSet := false }

/-- Response shape of the import endpoints: HTTP status, `success` flag
and error code if any. -/
structure ApiResponse where
  httpStatus : Nat
  success : Bool
  errorCode : Option String
deriving DecidableEq, Repr

/-- Result of one manual import invocation: the content store, the
rights-request store, the run record, the HTTP response, and the list of
progress-counter writes the invocation performed (in order). -/
structure ManualResult where
  posts : List UgcPost
  rights : List RightsRequest
  run : ImportLogRun
  response : ApiResponse
  progressWrites : List (Nat × Nat × Nat)
deriving Repr

/-- The manual import route, POST `/api/workspaces/[slug]/ugc`
(`ugc/route.ts` lines 99-286), modelled from after the workspace
context, permission check and `logger.start()` have succeeded, which is
where every behaviour the claims mention happens.  `postOk` / `rightsOk`
say whether the two `prisma...create` calls succeed; the message of a
database exception is abstracted as "Unknown database error". -/
def manualImport (validUrl : String → Bool) (ws : String) (posts0 : List UgcPost)
    (rights0 : List RightsRequest) (b : ManualBody) (postOk rightsOk : Bool)
    (runId : Nat) : ManualResult :=
  let r1 := runAppend (freshRun runId ws ("manual") 1)
    ImportLogStep.VALIDATING LogStatus.info ("Starting UGC import")
  if manualValidate validUrl b then
    let r2 := runAppend r1 ImportLogStep.VALIDATING LogStatus.success ("Input validation passed")
    let r3 := runAppend r2 ImportLogStep.CHECKING_DUPLICATE LogStatus.info
      ("Checking for existing imports")
    match posts0.find? (dupKeyMatches ws b.platform b.postUrl) with
    | some _ =>
      let r4 := runAppend r3 ImportLogStep.CHECKING_DUPLICATE LogStatus.warning
        ("Post already imported")
      { posts := posts0
        rights := rights0
        run := runFail r4 ("Duplicate post detected")
        response := { httpStatus := 409, success := false, errorCode := some ("DUPLICATE") }
        progressWrites := [] }
    | none =>
      let r4 := runAppend r3 ImportLogStep.CHECKING_DUPLICATE LogStatus.success
        ("No duplicate found")
      let r5 := runAppend r4 ImportLogStep.EXTRACTING_HASHTAGS LogStatus.info
        ("Processing hashtags from caption")
      let tags := extractManualHashtags b.hashtags b.caption
      let r6 := runAppend r5 ImportLogStep.EXTRACTING_HASHTAGS LogStatus.success
        ((("Found ") ++ toString tags.length) ++ (" hashtags"))
      let r7 := runAppend r6 ImportLogStep.CREATING_POST LogStatus.info
        ("Creating UGC post record")
      if postOk then
        let post : UgcPost :=
          { id := posts0.length
            workspaceId := ws
            platform := b.platform
            postUrl := b.postUrl
            creatorHandle := b.creatorHandle
            creatorName := b.creatorName
            caption := b.caption
            hashtags := tags
            postedAt := b.postedAt
            importSource := ("manual") }
        let r8 := runAppend r7 ImportLogStep.CREATING_POST LogStatus.success ("UGC post created")
        let r9 := runAppend r8 ImportLogStep.CREATING_RIGHTS_REQUEST LogStatus.info
          ("Creating rights request")
        let stepRights :=
          if rightsOk then
            (runAppend r9 ImportLogStep.CREATING_RIGHTS_REQUEST LogStatus.success
              ("Rights request created with PENDING status"),
             rights0 ++ [{ workspaceId := ws, ugcPostId := post.id, status := ("PENDING") }])
          else
            (runAppend r9 ImportLogStep.CREATING_RIGHTS_REQUEST LogStatus.warning
              ("Failed to create rights request"),
             rights0)
        let r10 := runSetProgress stepRights.1 1 1 0
        { posts := posts0 ++ [post]
          rights := stepRights.2
          run := runComplete r10 ImportLogStatus.COMPLETED
          response := { httpStatus := 201, success := true, errorCode := none }
          progressWrites := [(1, 1, 0)] }
      else
        let r8 := runAppend r7 ImportLogStep.CREATING_POST LogStatus.error
          ("Failed to create post")
        let r9 := runFail r8 ("Database error while creating post")
        let r10 := runAppend r9 ImportLogStep.FAILED LogStatus.error
          ("Import failed with error")
        { posts := posts0
          rights := rights0
          run := runFail r10 ("Unknown database error")
          response := { httpStatus := 500, success := false, errorCode := some ("INTERNAL_ERROR") }
          progressWrites := [] }
  else
    let r2 := runAppend r1 ImportLogStep.VALIDATING LogStatus.error ("Validation failed")
    { posts := posts0
      rights := rights0
      run := runFail r2 ("Invalid input data")
      response := { httpStatus := 400, success := false, errorCode := some ("VALIDATION_ERROR") }
      progressWrites := [] }

/-- Outcome of one CSV row, matching the four exits of the loop body in
`import/csv/route.ts`: validation failure, duplicate skip, a thrown
database error (from either `create`), or full success. -/
inductive RowOutcome where
  | validationFailed
  | duplicate
  | dbError
  | succeeded
deriving DecidableEq, Repr

/-- Mutable state of the CSV batch loop: the two content stores, the run
record, the three counters and the error list of the route, plus the
ordered list of progress-counter writes and the per-row outcomes. -/
structure CsvState where
  posts : List UgcPost
  rights : List RightsRequest
  run : ImportLogRun
  imported : Nat
  skipped : Nat
  failed : Nat
  errors : List (Nat × String)
  progressWrites : List (Nat × Nat × Nat)
  outcomes : List RowOutcome
deriving Repr

/-- One iteration of the CSV import loop (`import/csv/route.ts` lines
62-157) for the row numbered `rowNum` (1-based) out of `total`.
`postOk` / `rightsOk` say whether the two `prisma...create` calls for
this row succeed; a thrown error's message is abstracted as
"Database error" (the fallback string of the route).  The progress
counters are persisted only on the full-success branch, because the
other branches leave the iteration (by `continue` or by the row-level
`catch`) before reaching the cadence check. -/
def csvProcessRow (validUrl : String → Bool) (ws : String) (total : Nat)
    (postOk rightsOk : Bool) (rowNum : Nat) (row : CsvRawRow) (st : CsvState) : CsvState :=
  match csvValidate validUrl row with
  | Except.error errs =>
    let errorMsg := ((errs.head?).map Prod.snd).getD ("Invalid data")
    { st with
      failed := st.failed + 1
      errors := st.errors ++ [(rowNum, errorMsg)]
      run := runAppend st.run ImportLogStep.VALIDATING LogStatus.error
        (((("Row ") ++ toString rowNum) ++ (": Validation failed - ")) ++ errorMsg)
      outcomes := st.outcomes ++ [RowOutcome.validationFailed] }
  | Except.ok v =>
    match st.posts.find? (dupKeyMatches ws v.platform v.post_url) with
    | some _ =>
      { st with
        skipped := st.skipped + 1
        run := runAppend st.run ImportLogStep.CHECKING_DUPLICATE LogStatus.warning
          ((("Row ") ++ toString rowNum) ++ (": Duplicate post skipped"))
        outcomes := st.outcomes ++ [RowOutcome.duplicate] }
    | none =>
      let hashtags := parseCsvHashtags v.hashtags
      if postOk then
        let post : UgcPost :=
          { id := st.posts.length
            workspaceId := ws
            platform := v.platform
            postUrl := v.post_url
            creatorHandle := v.creator_handle
            creatorName := v.creator_name
            caption := v.caption
            hashtags := hashtags
            postedAt := v.posted_at
            importSource := ("csv") }
        if rightsOk then
          let st1 :=
            { st with
              posts := st.posts ++ [post]
              rights := st.rights ++ [{ workspaceId := ws, ugcPostId := post.id, status := ("PENDING") }]
              imported := st.imported + 1
              run := runAppend st.run ImportLogStep.CREATING_POST LogStatus.success
                ((((("Row ") ++ toString rowNum) ++ (": Successfully imported @")) ++ v.creator_handle))
              outcomes := st.outcomes ++ [RowOutcome.succeeded] }
          if rowNum % 5 == 0 || rowNum == total then
            { st1 with
              run := runSetProgress st1.run rowNum st1.imported st1.failed
              progressWrites := st1.progressWrites ++ [(rowNum, st1.imported, st1.failed)] }
          else st1
        else
          { st with
            posts := st.posts ++ [post]
            failed := st.failed + 1
            errors := st.errors ++ [(rowNum, ("Database error"))]
            run := runAppend st.run ImportLogStep.CREATING_POST LogStatus.error
              ((("Row ") ++ toString rowNum) ++ (": Database error"))
            outcomes := st.outcomes ++ [RowOutcome.dbError] }
      else
        { st with
          failed := st.failed + 1
          errors := st.errors ++ [(rowNum, ("Database error"))]
          run := runAppend st.run ImportLogStep.CREATING_POST LogStatus.error
            ((("Row ") ++ toString rowNum) ++ (": Database error"))
          outcomes := st.outcomes ++ [RowOutcome.dbError] }

/-- The CSV loop over the remaining rows, threading the row number. -/
def csvLoop (validUrl : String → Bool) (ws : String) (total : Nat)
    (postOkF rightsOkF : Nat → Bool) : List CsvRawRow → Nat → CsvState → CsvState
  | [], _, st => st
  | row :: rest, rowNum, st =>
    csvLoop validUrl ws total postOkF rightsOkF rest (rowNum + 1)
      (csvProcessRow validUrl ws total (postOkF rowNum) (rightsOkF rowNum) rowNum row st)

/-- The initial loop state of the CSV batch route: the stores as found,
zeroed counters, and the fresh PROCESSING run already carrying the
start-of-import info entry (`import/csv/route.ts` lines 47-55). -/
def csvInit (ws : String) (posts0 : List UgcPost) (rights0 : List RightsRequest)
    (rows : List CsvRawRow) (runId : Nat) : CsvState :=
  { posts := posts0
    rights := rights0
    run := runAppend (freshRun runId ws ("csv") rows.length)
      ImportLogStep.VALIDATING LogStatus.info
      ((("Starting CSV import with ") ++ toString rows.length) ++ (" rows"))
    imported := 0
    skipped := 0
    failed := 0
    errors := []
    progressWrites := []
    outcomes := [] }

/-- The epilogue after the CSV loop (`import/csv/route.ts` lines
159-162): one unconditional `updateProgress` with the final counters,
then `complete` with the resolved aggregate status. -/
def csvFinalize (total : Nat) (st1 : CsvState) : CsvState :=
  let st2 :=
    { st1 with
      run := runSetProgress st1.run total st1.imported st1.failed
      progressWrites := st1.progressWrites ++ [(total, st1.imported, st1.failed)] }
  { st2 with run := runComplete st2.run (resolveStatus total st1.failed) }

/-- The CSV batch import route, POST
`/api/workspaces/[slug]/ugc/import/csv` (`import/csv/route.ts` lines
17-204), modelled from after the workspace context, permission check,
non-emptiness check and `logger.start()` have succeeded: run the loop
over all rows, then unconditionally persist the final counters, resolve
the aggregate status and close the run via `logger.complete`. -/
def csvImport (validUrl : String → Bool) (ws : String) (posts0 : List UgcPost)
    (rights0 : List RightsRequest) (rows : List CsvRawRow)
    (postOkF rightsOkF : Nat → Bool) (runId : Nat) : CsvState :=
  csvFinalize rows.length
    (csvLoop validUrl ws rows.length postOkF rightsOkF rows 1
      (csvInit ws posts0 rights0 rows runId))

/-- Concrete URL predicate used by the concrete examples below: a string
is a well-formed URL iff it starts with "http" (every URL in the
examples does, every non-URL does not). -/
def vuFix : String → Bool := fun s => s.data.take 4 == ['h', 't', 't', 'p']

/-- A valid manual import body used by concrete examples. -/
def fixBody : ManualBody :=
  { postUrl := "https://x.com/a"
    platform := "TIKTOK"
    creatorHandle := "u1"
    creatorName := none
    caption := none
    hashtags := none
    postedAt := none }

/-- A valid CSV row with the given URL, used by concrete examples. -/
def fixRow (u : String) : CsvRawRow :=
  { post_url := u
    platform := "tiktok"
    creator_handle := "u1"
    creator_name := none
    caption := none
    hashtags := none
    posted_at := none }

/-- A CSV row whose platform upper-cases to a value outside the platform
enumeration. -/
def twitterRow : CsvRawRow :=
  { post_url := "https://x.com/a"
    platform := "twitter"
    creator_handle := "u1"
    creator_name := none
    caption := none
    hashtags := none
    posted_at := none }

/-- A manual body supplying explicit upper-case hashtags. -/
def dealBody : ManualBody :=
  { postUrl := "https://x.com/b"
    platform := "TIKTOK"
    creatorHandle := "u1"
    creatorName := none
    caption := some ("Great #Deal")
    hashtags := some [("DEAL")]
    postedAt := none }

/-- The result of importing `fixBody` into an empty workspace. -/
def firstManual : ManualResult := manualImport vuFix ("w1") [] [] fixBody true true 0

/-- The post record that the first import of `fixBody` persists. -/
def fixPost : UgcPost :=
  { id := 0
    workspaceId := "w1"
    platform := "TIKTOK"
    postUrl := "https://x.com/a"
    creatorHandle := "u1"
    creatorName := none
    caption := none
    hashtags := []
    postedAt := none
    importSource := "manual" }

/-- The result of submitting the identical body a second time. -/
def secondManual : ManualResult :=
  manualImport vuFix ("w1") firstManual.posts firstManual.rights fixBody true true 1

/-- A one-row CSV batch whose post create succeeds but whose
rights-request create fails. -/
def csvRightsFailRun : CsvState :=
  csvImport vuFix ("w1") [] [] [fixRow ("https://x.com/a")] (fun _ => true) (fun _ => false) 0

/-- The invariant of one persisted progress write of a batch with
`total` rows: processed is at most the row count, and
succeeded + failed is at most processed. -/
def progressWriteOk (total : Nat) (w : Nat × Nat × Nat) : Prop :=
  w.1 ≤ total ∧ w.2.1 + w.2.2 ≤ w.1

/-- Soundness of the in-loop progress writes recorded so far: every
write was made at a row number within the processed range, at a cadence
point (a multiple of 5 or the last row), and for a row that fully
succeeded. -/
def writeSound (total : Nat) (st : CsvState) : Prop :=
  ∀ w ∈ st.progressWrites,
    1 ≤ w.1 ∧ w.1 ≤ st.outcomes.length ∧ (w.1 % 5 = 0 ∨ w.1 = total) ∧
      st.outcomes.get? (w.1 - 1) = some RowOutcome.succeeded

/-- Completeness of the in-loop progress writes recorded so far: every
fully-succeeded row at a cadence point has a persisted write. -/
def writesCover (total : Nat) (st : CsvState) : Prop :=
  ∀ i, st.outcomes.get? i = some RowOutcome.succeeded →
    ((i + 1) % 5 = 0 ∨ i + 1 = total) →
    ∃ s f, ((i + 1, s, f) : Nat × Nat × Nat) ∈ st.progressWrites

/-- The conclusion of the CSV loop invariant, relative to the loop's
starting state `st0`: exact outcome accounting, write invariants,
soundness and coverage of cadence writes, no terminal entries appended,
totalItems untouched. -/
def loopInv (total : Nat) (st0 res : CsvState) : Prop :=
  res.imported + res.skipped + res.failed = total ∧
  res.outcomes.length = total ∧
  (∀ w ∈ res.progressWrites, progressWriteOk total w) ∧
  writeSound total res ∧
  writesCover total res ∧
  (∀ e ∈ res.run.entries, e ∈ st0.run.entries ∨
    (e.step ≠ ImportLogStep.COMPLETED ∧ e.step ≠ ImportLogStep.FAILED)) ∧
  res.run.totalItems = st0.run.totalItems

/-- A one-row batch in which every row fails validation. -/
def csvAllFailed : CsvState :=
  csvImport vuFix ("w1") [] [] [fixRow ("bad")] (fun _ => true) (fun _ => true) 0

/-- A six-row batch whose fifth row fails validation (invalid URL) and
whose other rows succeed. -/
def csvRows6 : List CsvRawRow :=
  [fixRow ("https://a"), fixRow ("https://b"), fixRow ("https://c"), fixRow ("https://d"),
   fixRow ("bad"), fixRow ("https://f")]

/-- The import of that six-row batch. -/
def csvSkip5 : CsvState :=
  csvImport vuFix ("w1") [] [] csvRows6 (fun _ => true) (fun _ => true) 0

/-- C3: for every total > 0 and 0 <= failed <= total the resolver maps
failed = total to FAILED, 0 < failed < total to PARTIAL and failed = 0
to COMPLETED; and the batch import's final persisted run status is
exactly the resolver applied to the row count and the failed counter. -/
theorem resolveStatus_correct (total failed : Nat) (h1 : 0 < total) (h2 : failed ≤ total) :
    (resolveStatus total failed = ImportLogStatus.FAILED ↔ failed = total) ∧
    (resolveStatus total failed = ImportLogStatus.PARTIAL ↔ 0 < failed ∧ failed < total) ∧
    (resolveStatus total failed = ImportLogStatus.COMPLETED ↔ failed = 0) ∧
    (∀ validUrl ws posts0 rights0 rows postOkF rightsOkF runId,
      (csvImport validUrl ws posts0 rights0 rows postOkF rightsOkF runId).run.status =
        resolveStatus rows.length
          (csvImport validUrl ws posts0 rights0 rows postOkF rightsOkF runId).failed) := by
  refine ⟨?_, ?_, ?_, ?_⟩
  · unfold resolveStatus
    split
    all_goals try split
    all_goals simp_all [Nat.beq_eq_true_eq]
  · unfold resolveStatus
    split
    all_goals try split
    all_goals simp_all [Nat.beq_eq_true_eq]
    all_goals omega
  · unfold resolveStatus
    split
    all_goals try split
    all_goals simp_all [Nat.beq_eq_true_eq]
    all_goals omega
  · intro validUrl ws posts0 rights0 rows postOkF rightsOkF runId
    rfl

/-- C3 witness: the resolver and the pipeline evaluated at concrete
inputs through `resolveStatus_correct`. -/
theorem resolveStatus_correct_witness :
    resolveStatus 3 1 = ImportLogStatus.PARTIAL ∧
    (csvImport vuFix ("w1") [] [] [fixRow ("https://a")] (fun _ => true) (fun _ => true)
        0).run.status =
      resolveStatus 1
        (csvImport vuFix ("w1") [] [] [fixRow ("https://a")] (fun _ => true) (fun _ => true)
          0).failed :=
  ⟨((resolveStatus_correct 3 1 (by decide) (by decide)).2.1).mpr (by decide),
   (resolveStatus_correct 3 1 (by decide) (by decide)).2.2.2 vuFix ("w1") [] []
     [fixRow ("https://a")] (fun _ => true) (fun _ => true) 0⟩

/-- C10: on a logger that was never started (`logId` still null),
`log` — and hence `success`, `error`, `warning`, `info` — throws
"ImportLogger not started. Call start() first.", while `updateProgress`,
`complete` and `fail` return without touching the store: a not-started
logger can never append an entry or mutate a run record. -/
theorem notStarted_logger_behavior (h : LoggerHandle) (store : LogStore)
    (hn : h.logId = none) :
    (∀ step status message, ImportLogger.log h store step status message =
      Except.error ("ImportLogger not started. Call start() first.")) ∧
    (∀ step message, ImportLogger.success h store step message =
      Except.error ("ImportLogger not started. Call start() first.")) ∧
    (∀ step message, ImportLogger.error h store step message =
      Except.error ("ImportLogger not started. Call start() first.")) ∧
    (∀ step message, ImportLogger.warning h store step message =
      Except.error ("ImportLogger not started. Call start() first.")) ∧
    (∀ step message, ImportLogger.info h store step message =
      Except.error ("ImportLogger not started. Call start() first.")) ∧
    (∀ processed succeeded failed,
      ImportLogger.updateProgress h store processed succeeded failed = store) ∧
    (∀ status, ImportLogger.complete h store status = store) ∧
    (∀ message, ImportLogger.fail h store message = store) := by
  refine ⟨?_, ?_, ?_, ?_, ?_, ?_, ?_, ?_⟩ <;> intros <;>
    simp [ImportLogger.log, ImportLogger.success, ImportLogger.error, ImportLogger.warning,
      ImportLogger.info, ImportLogger.updateProgress, ImportLogger.complete, ImportLogger.fail,
      notStartedMsg, hn]

/-- C10 witness: a concrete not-started logger, through
`notStarted_logger_behavior`. -/
theorem notStarted_logger_behavior_witness :
    ImportLogger.log { logId := none, workspaceId := ("w1"), source := ("manual"), totalItems := 1 }
        [] ImportLogStep.VALIDATING LogStatus.info ("x") =
      Except.error ("ImportLogger not started. Call start() first.") ∧
    ImportLogger.updateProgress
        { logId := none, workspaceId := ("w1"), source := ("manual"), totalItems := 1 } [] 1 1 0 =
      [] ∧
    ImportLogger.complete
        { logId := none, workspaceId := ("w1"), source := ("manual"), totalItems := 1 } []
        ImportLogStatus.COMPLETED = [] ∧
    ImportLogger.fail
        { logId := none, workspaceId := ("w1"), source := ("manual"), totalItems := 1 } [] ("x") =
      [] :=
  ⟨(notStarted_logger_behavior _ [] rfl).1 _ _ _,
   (notStarted_logger_behavior _ [] rfl).2.2.2.2.2.1 1 1 0,
   (notStarted_logger_behavior _ [] rfl).2.2.2.2.2.2.1 _,
   (notStarted_logger_behavior _ [] rfl).2.2.2.2.2.2.2 _⟩

/-- C9: when every run in the store with the requested id belongs to a
workspace other than the caller's, `getImportLog` returns none and the
single-run read endpoint answers exactly the 404 NOT_FOUND response it
gives for an id that exists nowhere: foreign runs are indistinguishable
from non-existent ones and no run data is leaked. -/
theorem foreign_run_not_leaked (store : LogStore) (ws : String) (logId freshId : Nat)
    (hforeign : ∀ r ∈ store, r.id = logId → r.workspaceId ≠ ws)
    (hfresh : ∀ r ∈ store, r.id ≠ freshId) :
    getImportLog store logId ws = none ∧
    importLogGetRoute store ws logId =
      { httpStatus := 404, success := false, errorCode := some ("NOT_FOUND"), payload := none } ∧
    importLogGetRoute store ws logId = importLogGetRoute store ws freshId := by
  have h1 : getImportLog store logId ws = none := by
    apply List.find?_eq_none.mpr
    intro r hr
    simp only [Bool.and_eq_true, beq_iff_eq, not_and]
    exact fun hid => hforeign r hr hid
  have h2 : getImportLog store freshId ws = none := by
    apply List.find?_eq_none.mpr
    intro r hr
    simp only [Bool.and_eq_true, beq_iff_eq, not_and]
    intro hid
    exact absurd hid (hfresh r hr)
  refine ⟨h1, ?_, ?_⟩ <;> simp [importLogGetRoute, h1, h2]

/-- C9 witness: a store holding one run of workspace w1, read from
workspace w2, through `foreign_run_not_leaked`. -/
theorem foreign_run_not_leaked_witness :
    getImportLog [freshRun 1 ("w1") ("manual") 1] 1 ("w2") = none ∧
    importLogGetRoute [freshRun 1 ("w1") ("manual") 1] ("w2") 1 =
      { httpStatus := 404, success := false, errorCode := some ("NOT_FOUND"), payload := none } ∧
    importLogGetRoute [freshRun 1 ("w1") ("manual") 1] ("w2") 1 =
      importLogGetRoute [freshRun 1 ("w1") ("manual") 1] ("w2") 2 :=
  foreign_run_not_leaked [freshRun 1 ("w1") ("manual") 1] ("w2") 1 2 (by decide) (by decide)

/-- C6 counterexample: the CSV row validator ACCEPTS a row whose
upper-cased platform ("TWITTER") is not in the platform enumeration —
`z.string().transform(val => val.toUpperCase() as Platform)` is a bare
cast and performs no membership check, so validation does not fail with
a field-keyed error for such a row. -/
theorem csv_platform_unchecked_cex :
    (csvValidate vuFix twitterRow).toOption.map CsvValidRow.platform = some ("TWITTER") ∧
    platformEnum.contains ("TWITTER") = false := by decide

/-- C6 amended: the CSV row validator upper-cases the platform field but
imposes no membership constraint on it: a row is accepted exactly when
its URL is well-formed and its creator handle non-empty (for any
platform string whatsoever), the accepted platform value is the
upper-cased input, and no validation error is ever keyed by the platform
field.  (The manual-path schema, by contrast, does check enumeration
membership — `manualValidate`.) -/
theorem csv_platform_uppercased_unchecked (validUrl : String → Bool) (row : CsvRawRow) :
    ((csvValidate validUrl row).isOk = true ↔
      (validUrl row.post_url = true ∧ 1 ≤ row.creator_handle.length)) ∧
    (∀ v, csvValidate validUrl row = Except.ok v → v.platform = upperString row.platform) ∧
    (∀ errs, csvValidate validUrl row = Except.error errs → ∀ e ∈ errs, e.1 ≠ ("platform")) ∧
    (∀ b, manualValidate validUrl b = true → platformEnum.contains b.platform = true) := by
  refine ⟨?_, ?_, ?_, ?_⟩
  · by_cases hu : validUrl row.post_url <;> by_cases hh : 1 ≤ row.creator_handle.length <;>
      simp [csvValidate, hu, hh, Except.isOk, Except.toBool]
  · intro v hv
    by_cases hu : validUrl row.post_url <;> by_cases hh : 1 ≤ row.creator_handle.length <;>
      simp [csvValidate, hu, hh] at hv <;> simp [← hv]
  · intro errs herrs e he
    by_cases hu : validUrl row.post_url <;> by_cases hh : 1 ≤ row.creator_handle.length <;>
      simp [csvValidate, hu, hh] at herrs <;> subst herrs <;> simp_all <;>
      rcases he with he | he <;> simp [he]
  · intro b hb
    simp only [manualValidate, Bool.and_eq_true] at hb
    exact hb.1.2

/-- C6 witness: `csv_platform_uppercased_unchecked` evaluated on a
concrete accepted row and on a concrete manual body. -/
theorem csv_platform_uppercased_unchecked_witness :
    (csvValidate vuFix (fixRow ("https://a"))).isOk = true ∧
    platformEnum.contains fixBody.platform = true :=
  ⟨(csv_platform_uppercased_unchecked vuFix (fixRow ("https://a"))).1.mpr
      ⟨by decide, by decide⟩,
   (csv_platform_uppercased_unchecked vuFix (fixRow ("https://a"))).2.2.2 fixBody (by decide)⟩

/-- C5 counterexample: a manual import whose row supplies the explicit
hashtag "DEAL" persists it verbatim as "DEAL", not lower-cased to
"deal" — explicit hashtags on the manual path are NOT lower-cased
(`hashtags || (caption...toLowerCase())` only lower-cases the extracted
branch). -/
theorem manual_hashtags_not_lowercased_cex :
    ((manualImport vuFix ("w1") [] [] dealBody true true 0).posts.map UgcPost.hashtags) =
      [[("DEAL")]] ∧
    ([("DEAL")] : List String) ≠ [("deal")] := by decide

/-- C5 amended: on the manual path an explicitly supplied hashtag list
is used verbatim with NO lower-casing, and only when absent is every
`#word` token extracted from the caption, stripped of `#` and
lower-cased (so the concrete caption round-trip holds); the persisted
hashtag set of a manual import is exactly `extractManualHashtags`.  On
the CSV path hashtags come from the comma-separated column — split,
trimmed, lower-cased, `#`-stripped — with no caption extraction, and the
persisted set is exactly `parseCsvHashtags`. -/
theorem hashtag_normalization (validUrl : String → Bool) (ws : String)
    (posts0 : List UgcPost) (rights0 : List RightsRequest) (b : ManualBody)
    (rightsOk : Bool) (runId : Nat)
    (hv : manualValidate validUrl b = true)
    (hnd : posts0.find? (dupKeyMatches ws b.platform b.postUrl) = none) :
    (manualImport validUrl ws posts0 rights0 b true rightsOk runId).posts =
      posts0 ++
        [{ id := posts0.length
           workspaceId := ws
           platform := b.platform
           postUrl := b.postUrl
           creatorHandle := b.creatorHandle
           creatorName := b.creatorName
           caption := b.caption
           hashtags := extractManualHashtags b.hashtags b.caption
           postedAt := b.postedAt
           importSource := ("manual") }] ∧
    (∀ hs c, extractManualHashtags (some hs) c = hs) ∧
    extractManualHashtags none (some ("Great #Deal and #SUMMER23!")) =
      [("deal"), ("summer23")] ∧
    (∀ total rowNum row v st rOk,
      csvValidate validUrl row = Except.ok v →
      st.posts.find? (dupKeyMatches ws v.platform v.post_url) = none →
      (csvProcessRow validUrl ws total true rOk rowNum row st).posts =
        st.posts ++
          [{ id := st.posts.length
             workspaceId := ws
             platform := v.platform
             postUrl := v.post_url
             creatorHandle := v.creator_handle
             creatorName := v.creator_name
             caption := v.caption
             hashtags := parseCsvHashtags v.hashtags
             postedAt := v.posted_at
             importSource := ("csv") }]) := by
  refine ⟨?_, ?_, ?_, ?_⟩
  · unfold manualImport
    simp only [hv, if_true, hnd]
  · intro hs c
    rfl
  · decide
  · intro total rowNum row v st rOk hval hfind
    unfold csvProcessRow
    simp only [hval, hfind, if_true]
    cases rOk <;> by_cases hc : (rowNum % 5 == 0 || rowNum == total) = true <;> simp [hc]

/-- C5 witness: `hashtag_normalization` applied at a concrete valid,
non-duplicate body, yielding the concrete caption round-trip. -/
theorem hashtag_normalization_witness :
    extractManualHashtags none (some ("Great #Deal and #SUMMER23!")) =
      [("deal"), ("summer23")] :=
  (hashtag_normalization vuFix ("w1") [] [] fixBody true 0 (by decide) (by decide)).2.2.1

/-- C1 counterexample: re-submitting the same valid manual row leaves
exactly one matching ContentRecord, but the duplicate IS surfaced to the
caller as an error (HTTP 409, success false, code DUPLICATE), nothing is
counted as skipped (the succeeded/failed counters are never written and
stay 0), and the run terminates with status FAILED — contradicting the
claimed warning-and-skip semantics for the manual path. -/
theorem manual_duplicate_cex :
    secondManual.posts.countP (dupKeyMatches ("w1") ("TIKTOK") ("https://x.com/a")) = 1 ∧
    secondManual.response =
      { httpStatus := 409, success := false, errorCode := some ("DUPLICATE") } ∧
    secondManual.run.status = ImportLogStatus.FAILED ∧
    secondManual.run.succeeded = 0 ∧
    secondManual.run.processed = 0 := by decide

/-- C1 amended: for every manual import whose row is valid and whose
(tenant, platform, url) key already exists, the second invocation is a
no-op on the content store (no post or rights request is created, so
exactly one matching ContentRecord remains) and a
step=checking_duplicate status=warning entry is recorded — but the
duplicate IS surfaced to the caller as an HTTP 409 DUPLICATE error, no
skipped counter exists on this path (the run's counters are never
written), and the run terminates with status FAILED via `logger.fail`.
(Only the CSV batch path treats a duplicate as a skipped non-error.) -/
theorem manual_duplicate_is_surfaced (validUrl : String → Bool) (ws : String)
    (posts0 : List UgcPost) (rights0 : List RightsRequest) (b : ManualBody)
    (postOk rightsOk : Bool) (runId : Nat) (p : UgcPost)
    (hv : manualValidate validUrl b = true)
    (hdup : posts0.find? (dupKeyMatches ws b.platform b.postUrl) = some p) :
    (manualImport validUrl ws posts0 rights0 b postOk rightsOk runId).posts = posts0 ∧
    (manualImport validUrl ws posts0 rights0 b postOk rightsOk runId).rights = rights0 ∧
    (manualImport validUrl ws posts0 rights0 b postOk rightsOk runId).response =
      { httpStatus := 409, success := false, errorCode := some ("DUPLICATE") } ∧
    (manualImport validUrl ws posts0 rights0 b postOk rightsOk runId).run.status =
      ImportLogStatus.FAILED ∧
    (manualImport validUrl ws posts0 rights0 b postOk rightsOk runId).run.completedAtSet = true ∧
    (manualImport validUrl ws posts0 rights0 b postOk rightsOk runId).run.succeeded = 0 ∧
    (manualImport validUrl ws posts0 rights0 b postOk rightsOk runId).run.failed = 0 ∧
    (manualImport validUrl ws posts0 rights0 b postOk rightsOk runId).progressWrites = [] ∧
    ({ step := ImportLogStep.CHECKING_DUPLICATE
       status := LogStatus.warning
       message := ("Post already imported") } : ImportLogEntry) ∈
      (manualImport validUrl ws posts0 rights0 b postOk rightsOk runId).run.entries := by
  unfold manualImport
  simp [hv, hdup, runFail, runAppend, freshRun]

/-- C1 witness: `manual_duplicate_is_surfaced` applied to the concrete
store produced by a first import of the same row. -/
theorem manual_duplicate_is_surfaced_witness :
    (manualImport vuFix ("w1") firstManual.posts firstManual.rights fixBody true true
        1).response =
      { httpStatus := 409, success := false, errorCode := some ("DUPLICATE") } ∧
    (manualImport vuFix ("w1") firstManual.posts firstManual.rights fixBody true true
        1).run.status = ImportLogStatus.FAILED :=
  ⟨(manual_duplicate_is_surfaced vuFix ("w1") firstManual.posts firstManual.rights fixBody
      true true 1 fixPost (by decide) (by decide)).2.2.1,
   (manual_duplicate_is_surfaced vuFix ("w1") firstManual.posts firstManual.rights fixBody
      true true 1 fixPost (by decide) (by decide)).2.2.2.1⟩

/-- C2 counterexample: on the CSV path, a row whose UgcPost is persisted
but whose RightsRequest creation fails is NOT counted as succeeded: the
row-level catch increments the failed counter, logs
step=creating_post status=error (no creating_rights_request entry is
ever written on this path), and imported stays 0 — even though the post
record was persisted. -/
theorem csv_rights_failure_not_swallowed_cex :
    csvRightsFailRun.failed = 1 ∧
    csvRightsFailRun.imported = 0 ∧
    csvRightsFailRun.posts.length = 1 ∧
    csvRightsFailRun.rights = [] ∧
    ({ step := ImportLogStep.CREATING_POST
       status := LogStatus.error
       message := ("Row 1: Database error") } : ImportLogEntry) ∈ csvRightsFailRun.run.entries ∧
    csvRightsFailRun.run.entries.filter
        (fun e => e.step == ImportLogStep.CREATING_RIGHTS_REQUEST) = [] ∧
    csvRightsFailRun.run.status = ImportLogStatus.FAILED := by decide

/-- C2 amended: the rights-request bootstrap failure is swallowed only
on the MANUAL path: there it logs step=creating_rights_request
status=warning, the run still completes with status COMPLETED and
counters (processed, succeeded, failed) = (1, 1, 0), and the caller gets
HTTP 201.  On the CSV path the same failure is caught by the row-level
catch: the row increments failed (not imported), logs
step=creating_post status=error, and the already-persisted post record
remains. -/
theorem rights_failure_swallowed_manual_only (validUrl : String → Bool) (ws : String)
    (posts0 : List UgcPost) (rights0 : List RightsRequest) (b : ManualBody) (runId : Nat)
    (hv : manualValidate validUrl b = true)
    (hnd : posts0.find? (dupKeyMatches ws b.platform b.postUrl) = none) :
    (manualImport validUrl ws posts0 rights0 b true false runId).run.status =
      ImportLogStatus.COMPLETED ∧
    ({ step := ImportLogStep.CREATING_RIGHTS_REQUEST
       status := LogStatus.warning
       message := ("Failed to create rights request") } : ImportLogEntry) ∈
      (manualImport validUrl ws posts0 rights0 b true false runId).run.entries ∧
    (manualImport validUrl ws posts0 rights0 b true false runId).progressWrites = [(1, 1, 0)] ∧
    (manualImport validUrl ws posts0 rights0 b true false runId).run.succeeded = 1 ∧
    (manualImport validUrl ws posts0 rights0 b true false runId).run.failed = 0 ∧
    (manualImport validUrl ws posts0 rights0 b true false runId).response.httpStatus = 201 ∧
    (manualImport validUrl ws posts0 rights0 b true false runId).posts.length =
      posts0.length + 1 ∧
    (manualImport validUrl ws posts0 rights0 b true false runId).rights = rights0 ∧
    (∀ total rowNum row v st,
      csvValidate validUrl row = Except.ok v →
      st.posts.find? (dupKeyMatches ws v.platform v.post_url) = none →
      (csvProcessRow validUrl ws total true false rowNum row st).failed = st.failed + 1 ∧
      (csvProcessRow validUrl ws total true false rowNum row st).imported = st.imported ∧
      (csvProcessRow validUrl ws total true false rowNum row st).posts.length =
        st.posts.length + 1 ∧
      (csvProcessRow validUrl ws total true false rowNum row st).rights = st.rights ∧
      (csvProcessRow validUrl ws total true false rowNum row st).outcomes =
        st.outcomes ++ [RowOutcome.dbError]) := by
  refine ⟨?_, ?_, ?_, ?_, ?_, ?_, ?_, ?_, ?_⟩
  all_goals try
    (unfold manualImport
     simp [hv, hnd, runComplete, runSetProgress, runAppend, runFail, freshRun])
  intro total rowNum row v st hval hfind
  unfold csvProcessRow
  simp [hval, hfind]

/-- C2 witness: `rights_failure_swallowed_manual_only` applied at a
concrete valid, non-duplicate body. -/
theorem rights_failure_swallowed_manual_only_witness :
    (manualImport vuFix ("w1") [] [] fixBody true false 0).run.status =
      ImportLogStatus.COMPLETED ∧
    (manualImport vuFix ("w1") [] [] fixBody true false 0).progressWrites = [(1, 1, 0)] :=
  ⟨(rights_failure_swallowed_manual_only vuFix ("w1") [] [] fixBody 0 (by decide)
      (by decide)).1,
   (rights_failure_swallowed_manual_only vuFix ("w1") [] [] fixBody 0 (by decide)
      (by decide)).2.2.1⟩

/-- Appending a row outcome that performs no progress write preserves
write soundness and coverage, provided a succeeded outcome is only
appended without a write off-cadence. -/
theorem inv_step_nowrite (total : Nat) (st st' : CsvState) (o : RowOutcome)
    (ho : st'.outcomes = st.outcomes ++ [o])
    (hw : st'.progressWrites = st.progressWrites)
    (hcond : o = RowOutcome.succeeded →
      ¬((st.outcomes.length + 1) % 5 = 0 ∨ st.outcomes.length + 1 = total))
    (hS : writeSound total st) (hC : writesCover total st) :
    writeSound total st' ∧ writesCover total st' := by
  constructor
  · intro w hmem
    rw [hw] at hmem
    obtain ⟨h1, h2, h3, h4⟩ := hS w hmem
    refine ⟨h1, ?_, h3, ?_⟩
    · rw [ho]
      simp only [List.length_append, List.length_singleton]
      omega
    · rw [ho]
      rw [List.get?_append (by omega)]
      exact h4
  · intro i hi hcad
    rw [ho] at hi
    rcases Nat.lt_trichotomy i st.outcomes.length with hlt | heq | hgt
    · rw [List.get?_append hlt] at hi
      obtain ⟨s, f, hmem⟩ := hC i hi hcad
      exact ⟨s, f, by rw [hw]; exact hmem⟩
    · subst heq
      rw [List.get?_concat_length] at hi
      injection hi with hi
      exact absurd hcad (hcond hi)
    · rw [List.get?_len_le (by simp; omega)] at hi
      exact absurd hi (by simp)

/-- Appending a succeeded row outcome together with its cadence-point
progress write preserves write soundness and coverage. -/
theorem inv_step_write (total : Nat) (st st' : CsvState) (s f : Nat)
    (ho : st'.outcomes = st.outcomes ++ [RowOutcome.succeeded])
    (hw : st'.progressWrites = st.progressWrites ++ [(st.outcomes.length + 1, s, f)])
    (hcad : (st.outcomes.length + 1) % 5 = 0 ∨ st.outcomes.length + 1 = total)
    (hS : writeSound total st) (hC : writesCover total st) :
    writeSound total st' ∧ writesCover total st' := by
  constructor
  · intro w hmem
    rw [hw] at hmem
    rcases List.mem_append.mp hmem with hold | hnew
    · obtain ⟨h1, h2, h3, h4⟩ := hS w hold
      refine ⟨h1, ?_, h3, ?_⟩
      · rw [ho]
        simp only [List.length_append, List.length_singleton]
        omega
      · rw [ho]
        rw [List.get?_append (by omega)]
        exact h4
    · rw [List.mem_singleton.mp hnew]
      refine ⟨by omega, ?_, hcad, ?_⟩
      · rw [ho]
        simp
      · rw [ho]
        simp only [Nat.add_sub_cancel]
        exact List.get?_concat_length st.outcomes RowOutcome.succeeded
  · intro i hi hcad2
    rw [ho] at hi
    rcases Nat.lt_trichotomy i st.outcomes.length with hlt | heq | hgt
    · rw [List.get?_append hlt] at hi
      obtain ⟨s2, f2, hmem⟩ := hC i hi hcad2
      exact ⟨s2, f2, by rw [hw]; exact List.mem_append.mpr (Or.inl hmem)⟩
    · subst heq
      refine ⟨s, f, ?_⟩
      rw [hw]
      exact List.mem_append.mpr (Or.inr (by simp [Nat.add_comm]))
    · rw [List.get?_len_le (by simp; omega)] at hi
      exact absurd hi (by simp)

/-- One CSV loop iteration preserves the loop invariant: the three
counters track exactly one outcome per processed row, progress writes
satisfy the counter invariant, are sound for and cover the cadence
points, appended log entries are never terminal, and the run's
totalItems is untouched. -/
theorem csvProcessRow_inv (validUrl : String → Bool) (ws : String) (total : Nat)
    (postOk rightsOk : Bool) (rowNum : Nat) (row : CsvRawRow) (st : CsvState)
    (hsum : st.imported + st.skipped + st.failed + 1 = rowNum)
    (hout : st.outcomes.length + 1 = rowNum)
    (hle : rowNum ≤ total)
    (hP : ∀ w ∈ st.progressWrites, progressWriteOk total w)
    (hS : writeSound total st) (hC : writesCover total st) :
    ((csvProcessRow validUrl ws total postOk rightsOk rowNum row st).imported +
        (csvProcessRow validUrl ws total postOk rightsOk rowNum row st).skipped +
        (csvProcessRow validUrl ws total postOk rightsOk rowNum row st).failed + 1 =
      rowNum + 1) ∧
    ((csvProcessRow validUrl ws total postOk rightsOk rowNum row st).outcomes.length + 1 =
      rowNum + 1) ∧
    (∀ w ∈ (csvProcessRow validUrl ws total postOk rightsOk rowNum row st).progressWrites,
      progressWriteOk total w) ∧
    writeSound total (csvProcessRow validUrl ws total postOk rightsOk rowNum row st) ∧
    writesCover total (csvProcessRow validUrl ws total postOk rightsOk rowNum row st) ∧
    (∀ e ∈ (csvProcessRow validUrl ws total postOk rightsOk rowNum row st).run.entries,
      e ∈ st.run.entries ∨
        (e.step ≠ ImportLogStep.COMPLETED ∧ e.step ≠ ImportLogStep.FAILED)) ∧
    (csvProcessRow validUrl ws total postOk rightsOk rowNum row st).run.totalItems =
      st.run.totalItems := by
  subst hout
  unfold csvProcessRow
  rcases hval : csvValidate validUrl row with errs | v
  · simp only [hval]
    refine ⟨by simp; omega, by simp, by simpa using hP, ?_, ?_, ?_, by simp [runAppend]⟩
    · exact (inv_step_nowrite total st _ RowOutcome.validationFailed (by simp) (by simp)
        (by intro h; cases h) hS hC).1
    · exact (inv_step_nowrite total st _ RowOutcome.validationFailed (by simp) (by simp)
        (by intro h; cases h) hS hC).2
    · intro e he
      simp [runAppend] at he
      rcases he with he | he
      · exact Or.inl he
      · simp [he]
  · simp only [hval]
    rcases hfind : st.posts.find? (dupKeyMatches ws v.platform v.post_url) with _ | p
    · simp only [hfind]
      by_cases hpo : postOk
      · simp only [hpo, if_true]
        by_cases hro : rightsOk
        · simp only [hro, if_true]
          by_cases hcad : ((st.outcomes.length + 1) % 5 == 0 ||
              st.outcomes.length + 1 == total) = true
          · simp only [hcad, if_true]
            have hcadP : (st.outcomes.length + 1) % 5 = 0 ∨ st.outcomes.length + 1 = total := by
              simpa [Nat.beq_eq_true_eq] using hcad
            refine ⟨by simp; omega, by simp, ?_, ?_, ?_, ?_, by simp [runAppend, runSetProgress]⟩
            · intro w hw
              simp only [List.mem_append, List.mem_singleton] at hw
              rcases hw with hw | hw
              · exact hP w hw
              · subst hw
                refine ⟨by omega, by simp; omega⟩
            · exact (inv_step_write total st _ (st.imported + 1) st.failed (by simp) (by simp)
                hcadP hS hC).1
            · exact (inv_step_write total st _ (st.imported + 1) st.failed (by simp) (by simp)
                hcadP hS hC).2
            · intro e he
              simp [runAppend, runSetProgress] at he
              rcases he with he | he
              · exact Or.inl he
              · simp [he]
          · simp only [hcad, if_false]
            have hcadP : ¬((st.outcomes.length + 1) % 5 = 0 ∨ st.outcomes.length + 1 = total) := by
              simpa [Nat.beq_eq_true_eq] using hcad
            refine ⟨by simp; omega, by simp, by simpa using hP, ?_, ?_, ?_,
              by simp [runAppend]⟩
            · exact (inv_step_nowrite total st _ RowOutcome.succeeded (by simp) (by simp)
                (fun _ => hcadP) hS hC).1
            · exact (inv_step_nowrite total st _ RowOutcome.succeeded (by simp) (by simp)
                (fun _ => hcadP) hS hC).2
            · intro e he
              simp [runAppend] at he
              rcases he with he | he
              · exact Or.inl he
              · simp [he]
        · simp only [hro, if_false]
          refine ⟨by simp; omega, by simp, by simpa using hP, ?_, ?_, ?_, by simp [runAppend]⟩
          · exact (inv_step_nowrite total st _ RowOutcome.dbError (by simp) (by simp)
              (by intro h; cases h) hS hC).1
          · exact (inv_step_nowrite total st _ RowOutcome.dbError (by simp) (by simp)
              (by intro h; cases h) hS hC).2
          · intro e he
            simp [runAppend] at he
            rcases he with he | he
            · exact Or.inl he
            · simp [he]
      · simp only [hpo, if_false]
        refine ⟨by simp; omega, by simp, by simpa using hP, ?_, ?_, ?_, by simp [runAppend]⟩
        · exact (inv_step_nowrite total st _ RowOutcome.dbError (by simp) (by simp)
            (by intro h; cases h) hS hC).1
        · exact (inv_step_nowrite total st _ RowOutcome.dbError (by simp) (by simp)
            (by intro h; cases h) hS hC).2
        · intro e he
          simp [runAppend] at he
          rcases he with he | he
          · exact Or.inl he
          · simp [he]
    · simp only [hfind]
      refine ⟨by simp; omega, by simp, by simpa using hP, ?_, ?_, ?_, by simp [runAppend]⟩
      · exact (inv_step_nowrite total st _ RowOutcome.duplicate (by simp) (by simp)
          (by intro h; cases h) hS hC).1
      · exact (inv_step_nowrite total st _ RowOutcome.duplicate (by simp) (by simp)
          (by intro h; cases h) hS hC).2
      · intro e he
        simp [runAppend] at he
        rcases he with he | he
        · exact Or.inl he
        · simp [he]

/-- The CSV loop establishes `loopInv` from any state satisfying the
per-iteration invariant. -/
theorem csvLoop_inv (validUrl : String → Bool) (ws : String) (total : Nat)
    (postOkF rightsOkF : Nat → Bool) :
    ∀ (rest : List CsvRawRow) (rowNum : Nat) (st : CsvState),
      st.imported + st.skipped + st.failed + 1 = rowNum →
      st.outcomes.length + 1 = rowNum →
      rowNum + rest.length = total + 1 →
      (∀ w ∈ st.progressWrites, progressWriteOk total w) →
      writeSound total st →
      writesCover total st →
      loopInv total st (csvLoop validUrl ws total postOkF rightsOkF rest rowNum st) := by
  intro rest
  induction rest with
  | nil =>
    intro rowNum st h1 h2 h3 h4 h5 h6
    simp only [List.length_nil, Nat.add_zero] at h3
    exact ⟨by simp only [csvLoop]; omega, by simp only [csvLoop]; omega,
      by simpa only [csvLoop] using h4, by simpa only [csvLoop] using h5,
      by simpa only [csvLoop] using h6,
      by simp only [csvLoop]; exact fun e he => Or.inl he, by simp only [csvLoop]⟩
  | cons row rest ih =>
    intro rowNum st h1 h2 h3 h4 h5 h6
    have hle : rowNum ≤ total := by
      simp only [List.length_cons] at h3
      omega
    obtain ⟨s1, s2, s3, s4, s5, s6, s7⟩ :=
      csvProcessRow_inv validUrl ws total (postOkF rowNum) (rightsOkF rowNum) rowNum row st
        h1 h2 hle h4 h5 h6
    obtain ⟨t1, t2, t3, t4, t5, t6, t7⟩ :=
      ih (rowNum + 1)
        (csvProcessRow validUrl ws total (postOkF rowNum) (rightsOkF rowNum) rowNum row st)
        s1 s2 (by simp only [List.length_cons] at h3; omega) s3 s4 s5
    refine ⟨t1, t2, t3, t4, t5, ?_, t7.trans s7⟩
    intro e he
    rcases t6 e he with h | h
    · exact s6 e h
    · exact Or.inr h

/-- The loop invariant holds of the state the CSV route's loop hands to
its epilogue. -/
theorem csvImport_loopInv (validUrl : String → Bool) (ws : String) (posts0 : List UgcPost)
    (rights0 : List RightsRequest) (rows : List CsvRawRow)
    (postOkF rightsOkF : Nat → Bool) (runId : Nat) :
    loopInv rows.length (csvInit ws posts0 rights0 rows runId)
      (csvLoop validUrl ws rows.length postOkF rightsOkF rows 1
        (csvInit ws posts0 rights0 rows runId)) := by
  apply csvLoop_inv
  · simp [csvInit]
  · simp [csvInit]
  · omega
  · intro w hw
    simp [csvInit] at hw
  · intro w hw
    simp [csvInit] at hw
  · intro i hi
    simp [csvInit] at hi

/-- C8: every progress-counter write performed by the batch controller
satisfies processed <= totalItems and succeeded + failed <= processed,
the run record's final counters satisfy the same invariant, and the
manual controller's writes and final counters do too (its only write is
(1, 1, 0) against totalItems 1; its failure paths never write, leaving
the created run at (0, 0, 0)). -/
theorem progress_counters_invariant (validUrl : String → Bool) (ws : String)
    (posts0 : List UgcPost) (rights0 : List RightsRequest) (rows : List CsvRawRow)
    (postOkF rightsOkF : Nat → Bool) (runId : Nat) :
    (∀ w ∈ (csvImport validUrl ws posts0 rights0 rows postOkF rightsOkF runId).progressWrites,
      w.1 ≤ (csvImport validUrl ws posts0 rights0 rows postOkF rightsOkF runId).run.totalItems ∧
        w.2.1 + w.2.2 ≤ w.1) ∧
    ((csvImport validUrl ws posts0 rights0 rows postOkF rightsOkF runId).run.processed ≤
      (csvImport validUrl ws posts0 rights0 rows postOkF rightsOkF runId).run.totalItems ∧
     (csvImport validUrl ws posts0 rights0 rows postOkF rightsOkF runId).run.succeeded +
        (csvImport validUrl ws posts0 rights0 rows postOkF rightsOkF runId).run.failed ≤
      (csvImport validUrl ws posts0 rights0 rows postOkF rightsOkF runId).run.processed) ∧
    (∀ (vu : String → Bool) (ws2 : String) (posts : List UgcPost)
        (rights : List RightsRequest) (b : ManualBody) (postOk rightsOk : Bool) (rid : Nat),
      (∀ w ∈ (manualImport vu ws2 posts rights b postOk rightsOk rid).progressWrites,
        w.1 ≤ (manualImport vu ws2 posts rights b postOk rightsOk rid).run.totalItems ∧
          w.2.1 + w.2.2 ≤ w.1) ∧
      (manualImport vu ws2 posts rights b postOk rightsOk rid).run.processed ≤
        (manualImport vu ws2 posts rights b postOk rightsOk rid).run.totalItems ∧
      (manualImport vu ws2 posts rights b postOk rightsOk rid).run.succeeded +
          (manualImport vu ws2 posts rights b postOk rightsOk rid).run.failed ≤
        (manualImport vu ws2 posts rights b postOk rightsOk rid).run.processed) := by
  obtain ⟨h1, h2, h3, h4, h5, h6, h7⟩ :=
    csvImport_loopInv validUrl ws posts0 rights0 rows postOkF rightsOkF runId
  have htot : (csvLoop validUrl ws rows.length postOkF rightsOkF rows 1
      (csvInit ws posts0 rights0 rows runId)).run.totalItems = rows.length := by
    rw [h7]
    simp [csvInit, runAppend, freshRun]
  have hres : (csvImport validUrl ws posts0 rights0 rows postOkF rightsOkF runId).run.totalItems =
      rows.length := by
    simp only [csvImport, csvFinalize, runComplete, runSetProgress, runAppend]
    exact htot
  refine ⟨?_, ?_, ?_⟩
  · intro w hw
    rw [hres]
    simp only [csvImport, csvFinalize, List.mem_append, List.mem_singleton] at hw
    rcases hw with hw | hw
    · exact h3 w hw
    · subst hw
      refine ⟨Nat.le_refl _, ?_⟩
      simp only []
      omega
  · rw [hres]
    have hp : (csvImport validUrl ws posts0 rights0 rows postOkF rightsOkF runId).run.processed =
        rows.length := by
      simp only [csvImport, csvFinalize, runComplete, runSetProgress, runAppend]
    have hs : (csvImport validUrl ws posts0 rights0 rows postOkF rightsOkF runId).run.succeeded =
        (csvLoop validUrl ws rows.length postOkF rightsOkF rows 1
          (csvInit ws posts0 rights0 rows runId)).imported := by
      simp only [csvImport, csvFinalize, runComplete, runSetProgress, runAppend]
    have hf : (csvImport validUrl ws posts0 rights0 rows postOkF rightsOkF runId).run.failed =
        (csvLoop validUrl ws rows.length postOkF rightsOkF rows 1
          (csvInit ws posts0 rights0 rows runId)).failed := by
      simp only [csvImport, csvFinalize, runComplete, runSetProgress, runAppend]
    rw [hp, hs, hf]
    omega
  · intro vu ws2 posts rights b postOk rightsOk rid
    unfold manualImport
    by_cases hv : manualValidate vu b
    · simp only [hv, if_true]
      rcases hfind : posts.find? (dupKeyMatches ws2 b.platform b.postUrl) with _ | p
      · simp only [hfind]
        cases postOk
        · simp [runFail, runAppend, freshRun]
        · cases rightsOk <;>
            simp [runComplete, runSetProgress, runAppend, runFail, freshRun]
      · simp only [hfind]
        simp [runFail, runAppend, freshRun]
    · simp only [hv, if_false]
      simp [runFail, runAppend, freshRun]

/-- C8 witness: `progress_counters_invariant` at a concrete batch and a
concrete manual import. -/
theorem progress_counters_invariant_witness :
    (csvImport vuFix ("w1") [] [] [fixRow ("https://a")] (fun _ => true) (fun _ => true)
        0).run.processed ≤
      (csvImport vuFix ("w1") [] [] [fixRow ("https://a")] (fun _ => true) (fun _ => true)
        0).run.totalItems ∧
    (manualImport vuFix ("w1") [] [] fixBody true true 0).run.succeeded +
        (manualImport vuFix ("w1") [] [] fixBody true true 0).run.failed ≤
      (manualImport vuFix ("w1") [] [] fixBody true true 0).run.processed :=
  ⟨(progress_counters_invariant vuFix ("w1") [] [] [fixRow ("https://a")] (fun _ => true)
      (fun _ => true) 0).2.1.1,
   ((progress_counters_invariant vuFix ("w1") [] [] [fixRow ("https://a")] (fun _ => true)
      (fun _ => true) 0).2.2 vuFix ("w1") [] [] fixBody true true 0).2.2⟩

/-- C4 counterexample: in a batch where every row failed, the run is
persisted with status FAILED but the terminal log entry is still
step=completed status=success ("Import completed" — `logger.complete`
always appends that entry regardless of the status argument); no
step=failed status=error entry exists at all. -/
theorem csv_terminal_entry_cex :
    csvAllFailed.failed = 1 ∧
    csvAllFailed.run.status = ImportLogStatus.FAILED ∧
    csvAllFailed.run.entries.getLast? =
      some { step := ImportLogStep.COMPLETED
             status := LogStatus.success
             message := ("Import completed") } ∧
    csvAllFailed.run.entries.filter
      (fun e => (e.step == ImportLogStep.FAILED) && (e.status == LogStatus.error)) = [] := by
  decide

/-- C4 amended: after all rows are processed the batch controller emits
exactly one terminal log entry, and it is always step=completed
status=success "Import completed" (also when every row failed — the
resolved FAILED status is persisted on the run record, but
`logger.complete` appends the same entry regardless); the entry list is
read back in append order (the model's list order) and this terminal
entry is always the last entry, with `completedAt` set. -/
theorem csv_terminal_entry (validUrl : String → Bool) (ws : String)
    (posts0 : List UgcPost) (rights0 : List RightsRequest) (rows : List CsvRawRow)
    (postOkF rightsOkF : Nat → Bool) (runId : Nat) :
    (csvImport validUrl ws posts0 rights0 rows postOkF rightsOkF runId).run.entries.getLast? =
      some { step := ImportLogStep.COMPLETED
             status := LogStatus.success
             message := ("Import completed") } ∧
    (csvImport validUrl ws posts0 rights0 rows postOkF rightsOkF runId).run.entries.filter
        (fun e => (e.step == ImportLogStep.COMPLETED) || (e.step == ImportLogStep.FAILED)) =
      [{ step := ImportLogStep.COMPLETED
         status := LogStatus.success
         message := ("Import completed") }] ∧
    (csvImport validUrl ws posts0 rights0 rows postOkF rightsOkF runId).run.completedAtSet =
      true := by
  obtain ⟨h1, h2, h3, h4, h5, h6, h7⟩ :=
    csvImport_loopInv validUrl ws posts0 rights0 rows postOkF rightsOkF runId
  have hent : (csvImport validUrl ws posts0 rights0 rows postOkF rightsOkF runId).run.entries =
      (csvLoop validUrl ws rows.length postOkF rightsOkF rows 1
        (csvInit ws posts0 rights0 rows runId)).run.entries ++
      [{ step := ImportLogStep.COMPLETED
         status := LogStatus.success
         message := ("Import completed") }] := by
    simp only [csvImport, csvFinalize, runComplete, runSetProgress, runAppend]
  have hnt : ∀ e ∈ (csvLoop validUrl ws rows.length postOkF rightsOkF rows 1
      (csvInit ws posts0 rights0 rows runId)).run.entries,
      e.step ≠ ImportLogStep.COMPLETED ∧ e.step ≠ ImportLogStep.FAILED := by
    intro e he
    rcases h6 e he with h | h
    · simp only [csvInit, runAppend, freshRun] at h
      simp only [List.nil_append, List.mem_singleton] at h
      subst h
      exact ⟨by simp, by simp⟩
    · exact h
  refine ⟨?_, ?_, ?_⟩
  · rw [hent]
    exact List.getLast?_concat _
  · rw [hent, List.filter_append]
    have hfilter : (csvLoop validUrl ws rows.length postOkF rightsOkF rows 1
        (csvInit ws posts0 rights0 rows runId)).run.entries.filter
        (fun e => (e.step == ImportLogStep.COMPLETED) || (e.step == ImportLogStep.FAILED)) =
        [] := by
      apply List.filter_eq_nil.mpr
      intro e he
      obtain ⟨hc, hf⟩ := hnt e he
      simp [hc, hf]
    rw [hfilter]
    simp
  · simp only [csvImport, csvFinalize, runComplete, runSetProgress, runAppend]

/-- C4 witness: `csv_terminal_entry` at a concrete batch. -/
theorem csv_terminal_entry_witness :
    (csvImport vuFix ("w1") [] [] [fixRow ("https://a")] (fun _ => true) (fun _ => true)
        0).run.completedAtSet = true :=
  (csv_terminal_entry vuFix ("w1") [] [] [fixRow ("https://a")] (fun _ => true) (fun _ => true)
    0).2.2

/-- C7 counterexample: row index 5 is a multiple of 5, yet because that
row failed validation the controller performs NO progress write with
processed = 5 — the in-loop cadence write at line 143 is reached only on
the full-success branch; the only writes of this batch are the
in-loop write after the last (succeeded) row and the unconditional final
write. -/
theorem csv_progress_cadence_cex :
    csvSkip5.outcomes.get? 4 = some RowOutcome.validationFailed ∧
    csvSkip5.progressWrites = [(6, 5, 1), (6, 5, 1)] ∧
    csvSkip5.progressWrites.filter (fun w => w.1 == 5) = [] := by decide

/-- C7 amended: the batch controller persists progress counters inside
the loop only at rows that fully succeeded and whose number is a
multiple of 5 or the last row (so a failed or skipped row at a
multiple-of-5 index produces no write), every such succeeded
cadence-point row does get a write, and one further write with
processed = total is performed unconditionally after the loop and is the
last write. -/
theorem csv_progress_cadence (validUrl : String → Bool) (ws : String)
    (posts0 : List UgcPost) (rights0 : List RightsRequest) (rows : List CsvRawRow)
    (postOkF rightsOkF : Nat → Bool) (runId : Nat) :
    (csvImport validUrl ws posts0 rights0 rows postOkF rightsOkF runId).progressWrites.getLast? =
      some (rows.length,
        (csvImport validUrl ws posts0 rights0 rows postOkF rightsOkF runId).imported,
        (csvImport validUrl ws posts0 rights0 rows postOkF rightsOkF runId).failed) ∧
    (∀ w ∈ (csvImport validUrl ws posts0 rights0 rows postOkF rightsOkF
        runId).progressWrites.dropLast,
      1 ≤ w.1 ∧ w.1 ≤ rows.length ∧ (w.1 % 5 = 0 ∨ w.1 = rows.length) ∧
        (csvImport validUrl ws posts0 rights0 rows postOkF rightsOkF runId).outcomes.get?
          (w.1 - 1) = some RowOutcome.succeeded) ∧
    (∀ i, (csvImport validUrl ws posts0 rights0 rows postOkF rightsOkF runId).outcomes.get? i =
        some RowOutcome.succeeded →
      ((i + 1) % 5 = 0 ∨ i + 1 = rows.length) →
      ∃ s f, ((i + 1, s, f) : Nat × Nat × Nat) ∈
        (csvImport validUrl ws posts0 rights0 rows postOkF rightsOkF runId).progressWrites) := by
  obtain ⟨h1, h2, h3, h4, h5, h6, h7⟩ :=
    csvImport_loopInv validUrl ws posts0 rights0 rows postOkF rightsOkF runId
  have hpw : (csvImport validUrl ws posts0 rights0 rows postOkF rightsOkF runId).progressWrites =
      (csvLoop validUrl ws rows.length postOkF rightsOkF rows 1
        (csvInit ws posts0 rights0 rows runId)).progressWrites ++
      [(rows.length,
        (csvLoop validUrl ws rows.length postOkF rightsOkF rows 1
          (csvInit ws posts0 rights0 rows runId)).imported,
        (csvLoop validUrl ws rows.length postOkF rightsOkF rows 1
          (csvInit ws posts0 rights0 rows runId)).failed)] := by
    simp only [csvImport, csvFinalize]
  have hoc : (csvImport validUrl ws posts0 rights0 rows postOkF rightsOkF runId).outcomes =
      (csvLoop validUrl ws rows.length postOkF rightsOkF rows 1
        (csvInit ws posts0 rights0 rows runId)).outcomes := by
    simp only [csvImport, csvFinalize]
  have him : (csvImport validUrl ws posts0 rights0 rows postOkF rightsOkF runId).imported =
      (csvLoop validUrl ws rows.length postOkF rightsOkF rows 1
        (csvInit ws posts0 rights0 rows runId)).imported := by
    simp only [csvImport, csvFinalize]
  have hfl : (csvImport validUrl ws posts0 rights0 rows postOkF rightsOkF runId).failed =
      (csvLoop validUrl ws rows.length postOkF rightsOkF rows 1
        (csvInit ws posts0 rights0 rows runId)).failed := by
    simp only [csvImport, csvFinalize]
  refine ⟨?_, ?_, ?_⟩
  · rw [hpw, him, hfl]
    exact List.getLast?_concat _
  · intro w hw
    rw [hpw, List.dropLast_concat] at hw
    obtain ⟨ha, hb, hc, hd⟩ := h4 w hw
    rw [hoc]
    exact ⟨ha, by omega, hc, hd⟩
  · intro i hi hcad
    rw [hoc] at hi
    obtain ⟨s, f, hmem⟩ := h5 i hi hcad
    exact ⟨s, f, by rw [hpw]; exact List.mem_append.mpr (Or.inl hmem)⟩

/-- C7 witness: `csv_progress_cadence` at the six-row batch: the final
unconditional write is last. -/
theorem csv_progress_cadence_witness :
    csvSkip5.progressWrites.getLast? =
      some (csvRows6.length, csvSkip5.imported, csvSkip5.failed) :=
  (csv_progress_cadence vuFix ("w1") [] [] csvRows6 (fun _ => true) (fun _ => true) 0).1
